import Mathlib

/-
Verification development for the basic-ecom backend.

Shallow embedding of the two core pieces of the repository:
  * the admin authorization middleware (middleware/admin.js, `isAdmin`), and
  * the product listing query engine (controllers/productController.js,
    `getProducts`), together with the product schema and its text index
    (models/Product.js),
plus a spec-modelled Token Service (the jwt-based issue/verify code is not
part of the provided sources; only the verification script shows issuance
with `expiresIn: 1d`).

JavaScript numbers are modelled as exact rationals extended with NaN and
signed Infinity.  The modelled fragment of `Number(string)` covers
whitespace-trimmed optional-sign decimal literals (with an optional
fractional part); exponent, hexadecimal and Infinity literals are outside
the fragment and are mapped to NaN.  All concrete inputs used below stay
inside the fragment.
-/

/-- A JavaScript number: NaN, signed infinity, or a finite value
(modelled as an exact rational; double rounding is not modelled and does
not affect the small magnitudes exercised here). -/
inductive JsNum where
  | nan : JsNum
  | inf (pos : Bool) : JsNum
  | num (v : Rat) : JsNum
deriving DecidableEq, Repr

/-- True exactly on finite JavaScript numbers. -/
def JsNum.isNum : JsNum → Bool
  | .num _ => true
  | _ => false

/-- Floor of a rational, computed from its reduced numerator/denominator. -/
def ratFloor (q : Rat) : Int :=
  Int.fdiv q.num (q.den : Int)

/-- Ceiling of a rational, mirroring Math.ceil on finite values. -/
def ratCeil (q : Rat) : Int :=
  -(ratFloor (-q))

/-- Rational addition written through mkRat so that the kernel can
evaluate it on literals (the library addition does not reduce). -/
def ratAdd (a b : Rat) : Rat :=
  mkRat (a.num * b.den + b.num * a.den) (a.den * b.den)

/-- Rational subtraction through mkRat, kernel-evaluable. -/
def ratSub (a b : Rat) : Rat :=
  mkRat (a.num * b.den - b.num * a.den) (a.den * b.den)

/-- Rational multiplication through mkRat, kernel-evaluable. -/
def ratMul (a b : Rat) : Rat :=
  mkRat (a.num * b.num) (a.den * b.den)

/-- Rational division through divInt, kernel-evaluable. -/
def ratDiv (a b : Rat) : Rat :=
  Rat.divInt (a.num * b.den) (a.den * b.num)

/-- JavaScript subtraction on numbers. -/
def jsSub : JsNum → JsNum → JsNum
  | .nan, _ => .nan
  | _, .nan => .nan
  | .num a, .num b => .num (ratSub a b)
  | .inf p, .num _ => .inf p
  | .num _, .inf p => .inf (!p)
  | .inf p, .inf q => if p == q then .nan else .inf p

/-- JavaScript multiplication on numbers. -/
def jsMul : JsNum → JsNum → JsNum
  | .nan, _ => .nan
  | _, .nan => .nan
  | .num a, .num b => .num (ratMul a b)
  | .inf p, .num b => if b = 0 then .nan else .inf (p == decide (0 < b))
  | .num a, .inf p => if a = 0 then .nan else .inf (p == decide (0 < a))
  | .inf p, .inf q => .inf (p == q)

/-- JavaScript division on numbers (division by zero yields an infinity,
as in `count / 0`). -/
def jsDiv : JsNum → JsNum → JsNum
  | .nan, _ => .nan
  | _, .nan => .nan
  | .num a, .num b => if b = 0 then (if a = 0 then .nan else .inf (decide (0 < a))) else .num (ratDiv a b)
  | .num _, .inf _ => .num 0
  | .inf p, .num b => if b = 0 then .inf p else .inf (p == decide (0 < b))
  | .inf _, .inf _ => .nan

/-- Math.ceil extended to NaN and infinities, which it maps to themselves. -/
def jsCeil : JsNum → JsNum
  | .nan => .nan
  | .inf p => .inf p
  | .num v => .num ((ratCeil v : Int) : Rat)

/-- Numeric value of a decimal digit character, if it is one. -/
def digitVal (c : Char) : Option Nat :=
  if c.isDigit then some (c.toNat - 48) else none

/-- Value of a nonempty all-digit character list, accumulator form. -/
def digitsValAux : List Char → Nat → Option Nat
  | [], acc => some acc
  | c :: cs, acc =>
    match digitVal c with
    | some d => digitsValAux cs (acc * 10 + d)
    | none => none

/-- Value of a character list that must be nonempty and all digits. -/
def digitsVal : List Char → Option Nat
  | [] => none
  | cs => digitsValAux cs 0

/-- Split a character list at the first dot, if any. -/
def splitAtDot : List Char → (List Char × Option (List Char))
  | [] => ([], none)
  | c :: rest =>
    if c = '.' then ([], some rest)
    else
      let (a, b) := splitAtDot rest
      (c :: a, b)

/-- Parse an unsigned decimal literal (digits with an optional fractional
part) to a rational. -/
def parseUnsigned (cs : List Char) : Option Rat :=
  match splitAtDot cs with
  | (ip, none) => (digitsVal ip).map (fun n => (n : Rat))
  | (ip, some fp) =>
    if ip.isEmpty && fp.isEmpty then none
    else
      let ipv : Option Nat := if ip.isEmpty then some 0 else digitsVal ip
      let fpv : Option Nat := if fp.isEmpty then some 0 else digitsVal fp
      match ipv, fpv with
      | some a, some b => some (mkRat ((a * 10 ^ fp.length + b : Nat) : Int) (10 ^ fp.length))
      | _, _ => none

/-- Whitespace recognized by the modelled trim (ASCII space and the usual
control whitespace). -/
def isSpaceChar (c : Char) : Bool :=
  c = ' ' || c = '\t' || c = '\n' || c = '\r'

/-- Drop leading whitespace characters. -/
def dropSpaces : List Char → List Char
  | [] => []
  | c :: cs => if isSpaceChar c then dropSpaces cs else c :: cs

/-- Trim whitespace from both ends of a character list. -/
def trimChars (cs : List Char) : List Char :=
  ((dropSpaces cs).reverse |> dropSpaces).reverse

/-- The modelled fragment of JavaScript Number(string): trim, empty gives 0,
optional sign followed by a decimal literal gives its value, anything else
gives NaN. -/
def jsToNumber (s : String) : JsNum :=
  let t := trimChars s.toList
  if t.isEmpty then .num 0
  else
    let (sgn, body) : Bool × List Char :=
      match t with
      | '+' :: r => (true, r)
      | '-' :: r => (false, r)
      | r => (true, r)
    match parseUnsigned body with
    | some v => .num (if sgn then v else -v)
    | none => .nan

/-- JavaScript truthiness of an optional string value (query parameters are
either absent or strings; the empty string is the only falsy string). -/
def truthy : Option String → Bool
  | none => false
  | some s => s != ""

/-
Data model of the catalog records, restricted to the fields the query
engine reads (models/Product.js).  `brand` is the one optional field in
the schema (no `required` validator), hence `Option String`; `createdAt`
comes from the schema's `timestamps: true` option.
-/

/-- A catalog record as seen by the query engine. -/
structure Product where
  name : String
  description : String
  brand : Option String
  category : String
  price : Rat
  createdAt : Nat
  isActive : Bool
deriving DecidableEq, Repr

/-- The untrusted request query parameters of GET /api/products.  Each is
either absent or a string (the Express query-string form). -/
structure QueryParams where
  page : Option String := none
  limit : Option String := none
  category : Option String := none
  brand : Option String := none
  search : Option String := none
  sort : Option String := none
  minPrice : Option String := none
  maxPrice : Option String := none
deriving DecidableEq, Repr

/-- The MongoDB filter document built by getProducts, restricted to the
clause shapes the controller can produce.  `isActive` is the base clause
that is always present. -/
structure ProductQuery where
  isActive : Bool
  category : Option String
  brand : Option String
  priceGte : Option JsNum
  priceLte : Option JsNum
  search : Option String
deriving DecidableEq, Repr

/-- Fields the controller can sort on. -/
inductive SortField where
  | createdAt : SortField
  | price : SortField
  | name : SortField
deriving DecidableEq, Repr

/-- A resolved sort option: field plus direction (asc = true). -/
structure SortSpec where
  key : SortField
  asc : Bool
deriving DecidableEq, Repr

/-- Sort resolution of getProducts: a chain of token comparisons starting
from the newest-first default (controllers/productController.js lines
99-104). -/
def resolveSort (sort : Option String) : SortSpec :=
  let s0 : SortSpec := ⟨.createdAt, false⟩
  let s1 := if sort == some "price_asc" then ⟨.price, true⟩ else s0
  let s2 := if sort == some "price_desc" then ⟨.price, false⟩ else s1
  let s3 := if sort == some "name_asc" then ⟨.name, true⟩ else s2
  if sort == some "name_desc" then ⟨.name, false⟩ else s3

/-- The filter document of getProducts (lines 83-97): always
`isActive: true`; category exact if truthy; brand as a case-insensitive
regular expression if truthy; a price clause holding the coercions
`Number(minPrice)` / `Number(maxPrice)` for whichever bound is truthy;
`$text` search if truthy. -/
def buildQuery (qp : QueryParams) : ProductQuery :=
  { isActive := true
    category := if truthy qp.category then qp.category else none
    brand := if truthy qp.brand then qp.brand else none
    priceGte :=
      if truthy qp.minPrice || truthy qp.maxPrice then
        (if truthy qp.minPrice then some (jsToNumber (qp.minPrice.getD "")) else none)
      else none
    priceLte :=
      if truthy qp.minPrice || truthy qp.maxPrice then
        (if truthy qp.maxPrice then some (jsToNumber (qp.maxPrice.getD "")) else none)
      else none
    search := if truthy qp.search then qp.search else none }

/-- Numeric value of the `page` variable after destructuring: the default
1 (a JavaScript number) when the parameter is absent, otherwise the string
as coerced by the numeric contexts it is used in. -/
def pageNum (qp : QueryParams) : JsNum :=
  match qp.page with
  | none => .num 1
  | some s => jsToNumber s

/-- Numeric value of the `limit` variable after destructuring: default 10
when absent, otherwise the coerced string. -/
def limitNum (qp : QueryParams) : JsNum :=
  match qp.limit with
  | none => .num 10
  | some s => jsToNumber s

/-- Everything getProducts derives from the query parameters before
touching the store: the filter, the sort option, `limit * 1`,
`(page - 1) * limit`, the raw numeric limit used in `count / limit`, and
`Number(page)` echoed in the pagination metadata. -/
structure Plan where
  query : ProductQuery
  sortSpec : SortSpec
  limitVal : JsNum
  skipVal : JsNum
  limitRaw : JsNum
  pageEcho : JsNum
deriving DecidableEq, Repr

/-- The parameter-resolution phase of getProducts (lines 72-109 and the
pagination metadata of lines 113-120). -/
def buildPlan (qp : QueryParams) : Plan :=
  { query := buildQuery qp
    sortSpec := resolveSort qp.sort
    limitVal := jsMul (limitNum qp) (.num 1)
    skipVal := jsMul (jsSub (pageNum qp) (.num 1)) (limitNum qp)
    limitRaw := limitNum qp
    pageEcho := pageNum qp }

/-
Matching semantics of the filter document.  The brand clause is
`{ $regex: <user string>, $options: 'i' }`: the user string is used as a
regular-expression pattern, searched case-insensitively anywhere in the
field.  The modelled pattern fragment is literal characters plus the dot
wildcard; the concrete patterns exercised below stay inside it.  The
`$text` clause delegates to the storage text index over
name/description/brand (models/Product.js line 181) and is kept abstract
as a relation between the search string and the record.
-/

/-- Does the dot-wildcard pattern match a prefix of the text here. -/
def dotMatchAt : List Char → List Char → Bool
  | [], _ => true
  | _ :: _, [] => false
  | p :: ps, c :: cs => (p == '.' || p == c) && dotMatchAt ps cs

/-- Does the dot-wildcard pattern match anywhere in the text
(unanchored regex search). -/
def dotSearch (pat : List Char) : List Char → Bool
  | [] => dotMatchAt pat []
  | c :: cs => dotMatchAt pat (c :: cs) || dotSearch pat cs

/-- Lowercase a character list (ASCII case fold, as Char.toLower). -/
def lowerChars (cs : List Char) : List Char :=
  cs.map Char.toLower

/-- Case-insensitive regular-expression search in the modelled
literal-plus-dot fragment: the semantics of the brand clause. -/
def ciRegexSearch (pat s : String) : Bool :=
  dotSearch (lowerChars pat.toList) (lowerChars s.toList)

/-- Does the literal pattern occur as a prefix of the text here. -/
def litMatchAt : List Char → List Char → Bool
  | [], _ => true
  | _ :: _, [] => false
  | p :: ps, c :: cs => (p == c) && litMatchAt ps cs

/-- Does the literal pattern occur anywhere in the text. -/
def litSearch (pat : List Char) : List Char → Bool
  | [] => litMatchAt pat []
  | c :: cs => litMatchAt pat (c :: cs) || litSearch pat cs

/-- Case-insensitive substring containment: the reading the specification
gives of the brand clause. -/
def ciSubstr (pat s : String) : Bool :=
  litSearch (lowerChars pat.toList) (lowerChars s.toList)

/-- Lower bound check of the price clause: is the stored price at least
the bound.  A NaN bound (a malformed minPrice) is modelled as matching
nothing; no settled statement depends on the NaN branch. -/
def geBound (price : Rat) : JsNum → Bool
  | .num b => decide (b ≤ price)
  | _ => false

/-- Upper bound check of the price clause. -/
def leBound (price : Rat) : JsNum → Bool
  | .num b => decide (price ≤ b)
  | _ => false

/-- The category clause of the filter document. -/
def catOk (q : ProductQuery) (p : Product) : Bool :=
  match q.category with
  | none => true
  | some c => p.category == c

/-- The brand regex clause; a record without a brand field never matches a
brand regex. -/
def brandOk (q : ProductQuery) (p : Product) : Bool :=
  match q.brand with
  | none => true
  | some pat =>
    match p.brand with
    | none => false
    | some pb => ciRegexSearch pat pb

/-- The price lower-bound clause. -/
def gteOk (q : ProductQuery) (p : Product) : Bool :=
  match q.priceGte with
  | none => true
  | some b => geBound p.price b

/-- The price upper-bound clause. -/
def lteOk (q : ProductQuery) (p : Product) : Bool :=
  match q.priceLte with
  | none => true
  | some b => leBound p.price b

/-- The text-search clause, abstract in the storage text-index relation. -/
def searchOk (tm : String → Product → Bool) (q : ProductQuery) (p : Product) : Bool :=
  match q.search with
  | none => true
  | some s => tm s p

/-- Does a record satisfy the filter document: the conjunction of the base
isActive clause and every present filter clause. -/
def queryMatches (tm : String → Product → Bool) (q : ProductQuery) (p : Product) : Bool :=
  (p.isActive == q.isActive) && catOk q p && brandOk q p && gteOk q p && lteOk q p
    && searchOk tm q p

/-- Lexicographic character-list comparison (binary collation, the MongoDB
default for strings). -/
def charsLe : List Char → List Char → Bool
  | [], _ => true
  | _ :: _, [] => false
  | a :: as, b :: bs => if a = b then charsLe as bs else decide (a < b)

/-- String comparison used by the name sort. -/
def strLeB (a b : String) : Bool :=
  charsLe a.toList b.toList

/-- The comparison a resolved sort option induces on records. -/
def sortCmp (sp : SortSpec) (a b : Product) : Bool :=
  match sp.key with
  | .createdAt => if sp.asc then decide (a.createdAt ≤ b.createdAt) else decide (b.createdAt ≤ a.createdAt)
  | .price => if sp.asc then decide (a.price ≤ b.price) else decide (b.price ≤ a.price)
  | .name => if sp.asc then strLeB a.name b.name else strLeB b.name a.name

/-- Insert into a sorted list, keeping existing order among ties. -/
def insertLe (le : Product → Product → Bool) (x : Product) : List Product → List Product
  | [] => [x]
  | y :: ys => if le x y then x :: y :: ys else y :: insertLe le x ys

/-- Insertion sort: the store's ordering of the result set under the
resolved sort option (tie order is unspecified in MongoDB; one definite
order is fixed here). -/
def sortLe (le : Product → Product → Bool) : List Product → List Product
  | [] => []
  | x :: xs => insertLe le x (sortLe le xs)

/-- Cursor skip/limit application, following the documented MongoDB
semantics: skip must be a non-negative integer (anything else is a thrown
driver/server error, surfacing as the catch branch); a limit of 0 means
no limit; a negative limit takes its absolute value; a non-integer or NaN
limit is a thrown error. -/
def runFind (sorted : List Product) (skip limit : JsNum) : Except String (List Product) :=
  match skip with
  | .num sk =>
    if sk.den = 1 ∧ 0 ≤ sk.num then
      let s := sk.num.toNat
      match limit with
      | .num lm =>
        if lm.den = 1 then
          let after := sorted.drop s
          .ok (if lm.num = 0 then after else after.take lm.num.natAbs)
        else .error "invalid limit"
      | _ => .error "invalid limit"
    else .error "invalid skip"
  | _ => .error "invalid skip"

/-- The successful response payload of getProducts: the data slice and the
pagination metadata `{ total, page, pages }`. -/
structure GetProductsOk where
  data : List Product
  total : Nat
  page : JsNum
  pages : JsNum
deriving DecidableEq, Repr

/-- Outcome of getProducts: the success envelope, or the 500 Server error
envelope of the catch branch. -/
inductive GetProductsRes where
  | ok (r : GetProductsOk) : GetProductsRes
  | serverError : GetProductsRes
deriving DecidableEq, Repr

/-- Length of the returned data slice (0 for the error envelope). -/
def resDataLen : GetProductsRes → Nat
  | .ok r => r.data.length
  | .serverError => 0

/-- The getProducts controller over a catalog state `db` (lines 70-129):
build the filter/sort/pagination plan, run the bounded find, count the
matching records, and assemble `{ data, pagination }`.  The two reads are
modelled against the same snapshot. -/
def getProducts (tm : String → Product → Bool) (db : List Product) (qp : QueryParams) :
    GetProductsRes :=
  let plan := buildPlan qp
  let matching := db.filter (queryMatches tm plan.query)
  let sorted := sortLe (sortCmp plan.sortSpec) matching
  match runFind sorted plan.skipVal plan.limitVal with
  | .error _ => .serverError
  | .ok prods =>
    .ok { data := prods
          total := matching.length
          page := plan.pageEcho
          pages := jsCeil (jsDiv (.num (matching.length : Rat)) plan.limitRaw) }

/-
The admin authorization middleware (middleware/admin.js).  The request
context carries `req.user`, the token payload the auth middleware resolves
(shape `{ userId }`); the Credential Store lookup `User.findById` is an
abstract function that can return a record, return nothing, or throw.
-/

/-- A user record of the Credential Store as the gate reads it
(models/User.js; `role` is the enum user/admin). -/
structure UserRec where
  id : String
  name : String
  email : String
  role : String
  isActive : Bool
deriving DecidableEq, Repr

/-- The resolved token payload attached to the request context by the
auth middleware; `userId` is optional to model a payload missing the
field (`!req.user.userId`). -/
structure AuthPayload where
  userId : Option String
deriving DecidableEq, Repr

/-- Outcome of the admin gate: a terminal JSON response
`{ success, message }` with an HTTP status, or admission with the full
user record attached to the request context. -/
inductive AdminOutcome where
  | respond (status : Nat) (success : Bool) (message : String) : AdminOutcome
  | next (currentUser : UserRec) : AdminOutcome
deriving DecidableEq, Repr

/-- The isAdmin middleware (middleware/admin.js lines 77-113).  `findById`
is the Credential Store lookup; a `.error` result models a thrown storage
error, handled by the catch branch.  A present but empty-string userId is
falsy in the source's `!req.user.userId` check. -/
def isAdmin (findById : String → Except String (Option UserRec))
    (reqUser : Option AuthPayload) : AdminOutcome :=
  match reqUser with
  | none => .respond 401 false "Authentication required"
  | some u =>
    match u.userId with
    | none => .respond 401 false "Authentication required"
    | some uid =>
      if uid = "" then .respond 401 false "Authentication required"
      else
        match findById uid with
        | .error _ => .respond 500 false "Server error during authorization"
        | .ok none => .respond 404 false "User not found"
        | .ok (some user) =>
          if user.role != "admin" then
            .respond 403 false "Access denied: Admin privileges required"
          else .next user

/-
Token Service.
Modelled from the spec: the jwt-based issue/verify implementation
(middleware/auth.js and the login controller) is not among the provided
sources; only the end-to-end script shows issuance via
`jwt.sign({ userId }, secret, { expiresIn: '1d' })`.  Spec section 4.1:
issue embeds the userId and an expiry one fixed day (86400 seconds) after
issuance; verify checks the signature against the process-wide secret,
fails Expired when current time is at or past the expiry, and otherwise
returns the embedded subject.  The cryptographic signature is abstracted
to recording which secret signed the token.
-/

/-- The authenticated identity resolved from a verified token. -/
structure Subject where
  userId : String
  issuedAt : Nat
  expiresAt : Nat
deriving DecidableEq, Repr

/-- Verification failures of the Token Service. -/
inductive AuthErr where
  | invalidSignature : AuthErr
  | expired : AuthErr
deriving DecidableEq, Repr

/-- A session token: payload plus the secret it was signed with
(abstracting the signature check). -/
structure Token where
  userId : String
  iat : Nat
  exp : Nat
  signedWith : String
deriving DecidableEq, Repr

/-- Modelled from the spec: token issuance, expiry one day (86400 seconds)
from issuance. -/
def tokenIssue (secret userId : String) (now : Nat) : Token :=
  { userId := userId, iat := now, exp := now + 86400, signedWith := secret }

/-- Modelled from the spec: token verification by signature then expiry
(expired when current time is at or past the embedded expiry). -/
def tokenVerify (secret : String) (t : Token) (now : Nat) : Except AuthErr Subject :=
  if t.signedWith != secret then .error .invalidSignature
  else if t.exp ≤ now then .error .expired
  else .ok { userId := t.userId, issuedAt := t.iat, expiresAt := t.exp }

/-
Concrete data used by the closed witnesses and counterexamples below.
-/

/-- A trivial text-index relation for inputs whose search clause is absent. -/
def tmAny : String → Product → Bool := fun _ _ => true

/-- A one-record Credential Store keyed by the record id. -/
def storeWith (r : UserRec) : String → Except String (Option UserRec) :=
  fun i => if i = r.id then .ok (some r) else .ok none

/-- A Credential Store with no records. -/
def storeEmpty : String → Except String (Option UserRec) :=
  fun _ => .ok none

/-- A Credential Store whose lookup throws. -/
def storeThrow : String → Except String (Option UserRec) :=
  fun _ => .error "connection lost"

/-- An admin user record. -/
def adminRec : UserRec :=
  { id := "u1", name := "Alice", email := "alice@example.com", role := "admin", isActive := true }

/-- A regular user record. -/
def plainRec : UserRec :=
  { id := "u2", name := "Bob", email := "bob@example.com", role := "user", isActive := true }

/-- Sample active products with distinct prices and creation times. -/
def prodA : Product :=
  { name := "Alpha Tee", description := "cotton tee", brand := some "Generic",
    category := "Men", price := 10, createdAt := 3, isActive := true }

/-- Second sample product. -/
def prodB : Product :=
  { name := "Beta Tee", description := "cotton tee", brand := some "Generic",
    category := "Men", price := 20, createdAt := 2, isActive := true }

/-- Third sample product. -/
def prodC : Product :=
  { name := "Gamma Tee", description := "cotton tee", brand := some "Generic",
    category := "Women", price := 30, createdAt := 1, isActive := true }

/-- Fourth sample product. -/
def prodD : Product :=
  { name := "Delta Tee", description := "cotton tee", brand := some "Generic",
    category := "Women", price := 40, createdAt := 0, isActive := true }

/-- A product whose brand contains characters that a dot wildcard can
match without being a substring occurrence of the pattern. -/
def prodXYZ : Product :=
  { name := "Wild Shirt", description := "printed shirt", brand := some "XYZ",
    category := "Men", price := 15, createdAt := 5, isActive := true }

/-- Is an optional numeric parameter either absent, empty (falsy), or
coercible to a finite number.  Hypothesis of the price-range
characterization, excluding NaN bounds. -/
def numOkField : Option String → Bool
  | none => true
  | some s => (s == "") || (jsToNumber s).isNum

/-
Theorems.  First the bridges from the kernel-evaluable rational
operations to the library operations, then per-clause characterizations,
then one theorem per claim.
-/

theorem ratAdd_eq (a b : Rat) : ratAdd a b = a + b :=
  (Rat.add_def' a b).symm

theorem ratSub_eq (a b : Rat) : ratSub a b = a - b :=
  (Rat.sub_def' a b).symm

theorem ratMul_eq (a b : Rat) : ratMul a b = a * b := by
  rw [ratMul, Rat.mkRat_eq_divInt]
  push_cast
  rw [← Rat.divInt_mul_divInt _ _ (Int.natCast_ne_zero.mpr a.den_nz)
        (Int.natCast_ne_zero.mpr b.den_nz), Rat.num_divInt_den, Rat.num_divInt_den]

theorem ratDiv_eq (a b : Rat) : ratDiv a b = a / b :=
  (Rat.div_def' a b).symm

theorem jsMul_one (x : JsNum) : jsMul x (.num 1) = x := by
  cases x with
  | nan => rfl
  | inf p => simp [jsMul]
  | num a => simp [jsMul, ratMul_eq]

/-- C1: for a request whose resolved payload carries a (truthy) userId and
whose Credential Store lookup finds the record, the admin gate responds
403 with the fixed `{ success: false, message }` envelope when the
record's role is not admin, and otherwise passes control onward with the
full record attached to the context. -/
theorem isAdmin_role_decision (findById : String → Except String (Option UserRec))
    (u : AuthPayload) (uid : String) (rec : UserRec)
    (hid : u.userId = some uid) (hne : uid ≠ "")
    (hfound : findById uid = .ok (some rec)) :
    (rec.role ≠ "admin" →
      isAdmin findById (some u) =
        .respond 403 false "Access denied: Admin privileges required")
    ∧ (rec.role = "admin" → isAdmin findById (some u) = .next rec) := by
  constructor
  · intro hr
    simp [isAdmin, hid, hne, hfound, bne_iff_ne, hr]
  · intro hr
    simp [isAdmin, hid, hne, hfound, bne_iff_ne, hr]

/-- Witness for C1: a user-role record is rejected with 403 and an
admin-role record passes through with the record attached. -/
theorem isAdmin_role_decision_witness :
    isAdmin (storeWith plainRec) (some ⟨some "u2"⟩) =
      .respond 403 false "Access denied: Admin privileges required"
    ∧ isAdmin (storeWith adminRec) (some ⟨some "u1"⟩) = .next adminRec :=
  ⟨(isAdmin_role_decision (storeWith plainRec) ⟨some "u2"⟩ "u2" plainRec rfl
      (by decide) rfl).1 (by decide),
   (isAdmin_role_decision (storeWith adminRec) ⟨some "u1"⟩ "u1" adminRec rfl
      (by decide) rfl).2 (by decide)⟩

/-- C7: the admin gate responds 401 when no payload is present (or the
payload lacks a truthy userId) and this outcome is the same for every
Credential Store, so the store is not consulted; and it responds 404 when
the payload is present but the lookup finds no record. -/
theorem isAdmin_precondition_checks (f : String → Except String (Option UserRec))
    (u : AuthPayload) (uid : String)
    (hid : u.userId = some uid) (hne : uid ≠ "") (hnone : f uid = .ok none) :
    (∀ g : String → Except String (Option UserRec),
      isAdmin g none = .respond 401 false "Authentication required")
    ∧ (∀ g : String → Except String (Option UserRec),
      isAdmin g (some ⟨none⟩) = .respond 401 false "Authentication required")
    ∧ (∀ g : String → Except String (Option UserRec),
      isAdmin g (some ⟨some ""⟩) = .respond 401 false "Authentication required")
    ∧ isAdmin f (some u) = .respond 404 false "User not found" := by
  refine ⟨fun g => rfl, fun g => rfl, fun g => rfl, ?_⟩
  simp [isAdmin, hid, hne, hnone]

/-- Witness for C7 at a throwing store (401 regardless of the store) and
an empty store (404). -/
theorem isAdmin_precondition_checks_witness :
    isAdmin storeThrow none = .respond 401 false "Authentication required"
    ∧ isAdmin storeEmpty (some ⟨some "u9"⟩) = .respond 404 false "User not found" :=
  ⟨(isAdmin_precondition_checks storeEmpty ⟨some "u9"⟩ "u9" rfl (by decide) rfl).1
      storeThrow,
   (isAdmin_precondition_checks storeEmpty ⟨some "u9"⟩ "u9" rfl (by decide) rfl).2.2.2⟩

/-- C8: when the Credential Store lookup throws, the admin gate responds
500 with the fixed `{ success: false, message }` envelope, the same for
every thrown error, so no raw error detail reaches the caller. -/
theorem isAdmin_error_isolation (f : String → Except String (Option UserRec))
    (u : AuthPayload) (uid e : String)
    (hid : u.userId = some uid) (hne : uid ≠ "") (herr : f uid = .error e) :
    isAdmin f (some u) = .respond 500 false "Server error during authorization" := by
  simp [isAdmin, hid, hne, herr]

/-- Witness for C8 at a store whose lookup throws. -/
theorem isAdmin_error_isolation_witness :
    isAdmin storeThrow (some ⟨some "u1"⟩) =
      .respond 500 false "Server error during authorization" :=
  isAdmin_error_isolation storeThrow ⟨some "u1"⟩ "u1" "connection lost" rfl
    (by decide) rfl

/-- C6: a token issued for a user and verified with the same secret before
its expiry (one fixed day, 86400 seconds, after issuance) is accepted, and
the returned Subject carries that userId with the issuance timestamps. -/
theorem tokenVerify_roundtrip (secret u : String) (iss now : Nat)
    (h : now < iss + 86400) :
    tokenVerify secret (tokenIssue secret u iss) now =
      .ok { userId := u, issuedAt := iss, expiresAt := iss + 86400 } := by
  simp [tokenVerify, tokenIssue, Nat.not_le.mpr h]

/-- Witness for C6: issue at time 100, verify at time 200. -/
theorem tokenVerify_roundtrip_witness :
    tokenVerify "secret" (tokenIssue "secret" "alice" 100) 200 =
      .ok { userId := "alice", issuedAt := 100, expiresAt := 86500 } :=
  tokenVerify_roundtrip "secret" "alice" 100 200 (by decide)

/-- C2: sort resolution of the query engine: the four accepted tokens map
to their field/direction pairs, an absent token gives the newest-first
default, and any other token silently gives the same default. -/
theorem sortResolution (qp : QueryParams) :
    (qp.sort = some "price_asc" → (buildPlan qp).sortSpec = ⟨.price, true⟩)
    ∧ (qp.sort = some "price_desc" → (buildPlan qp).sortSpec = ⟨.price, false⟩)
    ∧ (qp.sort = some "name_asc" → (buildPlan qp).sortSpec = ⟨.name, true⟩)
    ∧ (qp.sort = some "name_desc" → (buildPlan qp).sortSpec = ⟨.name, false⟩)
    ∧ (qp.sort = none → (buildPlan qp).sortSpec = ⟨.createdAt, false⟩)
    ∧ (∀ s, qp.sort = some s → s ≠ "price_asc" → s ≠ "price_desc" → s ≠ "name_asc" →
        s ≠ "name_desc" → (buildPlan qp).sortSpec = ⟨.createdAt, false⟩) := by
  have hq : (buildPlan qp).sortSpec = resolveSort qp.sort := rfl
  refine ⟨fun h => ?_, fun h => ?_, fun h => ?_, fun h => ?_, fun h => ?_,
    fun s h h1 h2 h3 h4 => ?_⟩
  · rw [hq, h]; rfl
  · rw [hq, h]; rfl
  · rw [hq, h]; rfl
  · rw [hq, h]; rfl
  · rw [hq, h]; rfl
  · rw [hq, h]; simp [resolveSort, beq_iff_eq, h1, h2, h3, h4]

/-- Witness for C2 at a recognized token and at an unknown token. -/
theorem sortResolution_witness :
    (buildPlan { sort := some "price_asc" }).sortSpec = ⟨.price, true⟩
    ∧ (buildPlan { sort := some "banana" }).sortSpec = ⟨.createdAt, false⟩ :=
  ⟨(sortResolution { sort := some "price_asc" }).1 rfl,
   (sortResolution { sort := some "banana" }).2.2.2.2.2 "banana" rfl
     (by decide) (by decide) (by decide) (by decide)⟩

/-- Counterexample for C3: the engine applies no coercion to a provided
limit: `limit=0` stays 0 (it is not coerced to the default 10), a negative
limit passes through, and there is no ceiling; a provided `page=0` stays 0
rather than being coerced positive. -/
theorem pageLimit_coercion_cex :
    (buildPlan { limit := some "0" }).limitVal = .num 0
    ∧ (buildPlan { limit := some "0" }).limitVal ≠ .num 10
    ∧ (buildPlan { limit := some "-5" }).limitVal = .num (-5)
    ∧ (buildPlan { limit := some "1000000" }).limitVal = .num 1000000
    ∧ (buildPlan { page := some "0" }).pageEcho = .num 0 := by
  decide

/-- C3 amended: absent page and limit default to 1 and 10 (with skip 0),
and provided values are numerically coerced and used as they are, with no
positivity coercion and no ceiling. -/
theorem pageLimit_defaults_passthrough (qp : QueryParams) :
    (qp.page = none → (buildPlan qp).pageEcho = .num 1)
    ∧ (qp.limit = none → (buildPlan qp).limitVal = .num 10)
    ∧ (qp.page = none ∧ qp.limit = none → (buildPlan qp).skipVal = .num 0)
    ∧ (∀ s, qp.limit = some s → (buildPlan qp).limitVal = jsToNumber s)
    ∧ (∀ s, qp.page = some s → (buildPlan qp).pageEcho = jsToNumber s) := by
  refine ⟨fun h => ?_, fun h => ?_, fun h => ?_, fun s h => ?_, fun s h => ?_⟩
  · simp [buildPlan, pageNum, h]
  · simp [buildPlan, limitNum, h, jsMul_one]
  · simp [buildPlan, pageNum, limitNum, h.1, h.2, jsSub, jsMul, ratSub_eq, ratMul_eq]
  · simp [buildPlan, limitNum, h, jsMul_one]
  · simp [buildPlan, pageNum, h]

/-- Witness for C3 amended: the defaults at an empty parameter set and the
pass-through at limit=7. -/
theorem pageLimit_defaults_passthrough_witness :
    (buildPlan {}).pageEcho = .num 1
    ∧ (buildPlan {}).limitVal = .num 10
    ∧ (buildPlan {}).skipVal = .num 0
    ∧ (buildPlan { limit := some "7" }).limitVal = jsToNumber "7" :=
  ⟨(pageLimit_defaults_passthrough {}).1 rfl,
   (pageLimit_defaults_passthrough {}).2.1 rfl,
   (pageLimit_defaults_passthrough {}).2.2.1 ⟨rfl, rfl⟩,
   (pageLimit_defaults_passthrough { limit := some "7" }).2.2.2.1 "7" rfl⟩

/-- Counterexample for C9: a malformed numeric parameter is not treated as
absent: `page=abc` yields NaN for the echoed page and the skip (the
defaults would give 1 and 0), and `minPrice=abc` installs a NaN lower
bound in the filter instead of omitting the clause. -/
theorem malformedNumeric_cex :
    (buildPlan { page := some "abc" }).pageEcho = .nan
    ∧ (buildPlan { page := some "abc" }).pageEcho ≠ (buildPlan {}).pageEcho
    ∧ (buildPlan { page := some "abc" }).skipVal = .nan
    ∧ (buildPlan { minPrice := some "abc" }).query.priceGte = some .nan
    ∧ (buildPlan { minPrice := some "abc" }).query ≠ (buildPlan {}).query := by
  decide

/-- C9 amended: malformed numeric parameters are not rejected — the engine
still builds its plan — but they are coerced to NaN, which flows into the
page echo, the skip, the limit, and the price bounds, rather than the
parameters being treated as absent. -/
theorem malformedNumeric_flow (qp : QueryParams) (s : String)
    (hnan : jsToNumber s = .nan) :
    (qp.page = some s → (buildPlan qp).pageEcho = .nan ∧ (buildPlan qp).skipVal = .nan)
    ∧ (qp.limit = some s → (buildPlan qp).limitVal = .nan)
    ∧ (qp.minPrice = some s → s ≠ "" → (buildPlan qp).query.priceGte = some .nan)
    ∧ (qp.maxPrice = some s → s ≠ "" → (buildPlan qp).query.priceLte = some .nan) := by
  refine ⟨fun h => ⟨?_, ?_⟩, fun h => ?_, fun h hs => ?_, fun h hs => ?_⟩
  · simp [buildPlan, pageNum, h, hnan]
  · simp [buildPlan, pageNum, h, hnan, jsSub, jsMul]
  · simp [buildPlan, limitNum, h, hnan, jsMul]
  · simp [buildPlan, buildQuery, truthy, h, hs, hnan, bne_iff_ne]
  · simp [buildPlan, buildQuery, truthy, h, hs, hnan, bne_iff_ne]

/-- Witness for C9 amended at the malformed value "abc". -/
theorem malformedNumeric_flow_witness :
    (buildPlan { page := some "abc" }).pageEcho = .nan
    ∧ (buildPlan { minPrice := some "abc" }).query.priceGte = some .nan :=
  ⟨((malformedNumeric_flow { page := some "abc" } "abc" (by decide)).1 rfl).1,
   (malformedNumeric_flow { minPrice := some "abc" } "abc" (by decide)).2.2.1 rfl
     (by decide)⟩

/-- C10: a present-but-empty string for category, brand, search, minPrice,
maxPrice or sort produces exactly the plan of the absent parameter: no
filter clause is added and the default sort applies. -/
theorem emptyString_as_absent (qp : QueryParams) :
    buildPlan { qp with category := some "" } = buildPlan { qp with category := none }
    ∧ buildPlan { qp with brand := some "" } = buildPlan { qp with brand := none }
    ∧ buildPlan { qp with search := some "" } = buildPlan { qp with search := none }
    ∧ buildPlan { qp with minPrice := some "" } = buildPlan { qp with minPrice := none }
    ∧ buildPlan { qp with maxPrice := some "" } = buildPlan { qp with maxPrice := none }
    ∧ buildPlan { qp with sort := some "" } = buildPlan { qp with sort := none } :=
  ⟨rfl, rfl, rfl, rfl, rfl, rfl⟩

theorem catOk_char (qp : QueryParams) (p : Product) :
    catOk (buildQuery qp) p = true ↔
      (match qp.category with
       | none => True
       | some c => c = "" ∨ p.category = c) := by
  cases h : qp.category with
  | none => simp [catOk, buildQuery, truthy, h]
  | some c =>
    by_cases hc : c = ""
    · subst hc; simp [catOk, buildQuery, truthy, h]
    · simp [catOk, buildQuery, truthy, h, hc, bne_iff_ne, beq_iff_eq]

theorem brandOk_char (qp : QueryParams) (p : Product) :
    brandOk (buildQuery qp) p = true ↔
      (match qp.brand with
       | none => True
       | some pat => pat = "" ∨ ∃ pb, p.brand = some pb ∧ ciRegexSearch pat pb = true) := by
  cases h : qp.brand with
  | none => simp [brandOk, buildQuery, truthy, h]
  | some pat =>
    by_cases hpat : pat = ""
    · subst hpat; simp [brandOk, buildQuery, truthy, h]
    · cases hb : p.brand with
      | none => simp [brandOk, buildQuery, truthy, h, hpat, bne_iff_ne, hb]
      | some pb => simp [brandOk, buildQuery, truthy, h, hpat, bne_iff_ne, hb]

theorem isNum_exists {x : JsNum} (hx : x.isNum = true) : ∃ v, x = .num v := by
  cases x with
  | nan => simp [JsNum.isNum] at hx
  | inf p => simp [JsNum.isNum] at hx
  | num v => exact ⟨v, rfl⟩

theorem gteOk_char (qp : QueryParams) (p : Product)
    (hok : numOkField qp.minPrice = true) :
    gteOk (buildQuery qp) p = true ↔
      (match qp.minPrice with
       | none => True
       | some s => s = "" ∨ ∃ v, jsToNumber s = .num v ∧ v ≤ p.price) := by
  cases h : qp.minPrice with
  | none => simp [gteOk, buildQuery, truthy, h]
  | some s =>
    by_cases hs : s = ""
    · subst hs; simp [gteOk, buildQuery, truthy, h]
    · rw [h] at hok
      simp only [numOkField] at hok
      obtain ⟨v, hv⟩ := isNum_exists (by simpa [hs] using hok)
      simp [gteOk, buildQuery, truthy, h, hs, bne_iff_ne, hv, geBound]

theorem lteOk_char (qp : QueryParams) (p : Product)
    (hok : numOkField qp.maxPrice = true) :
    lteOk (buildQuery qp) p = true ↔
      (match qp.maxPrice with
       | none => True
       | some s => s = "" ∨ ∃ v, jsToNumber s = .num v ∧ p.price ≤ v) := by
  cases h : qp.maxPrice with
  | none => simp [lteOk, buildQuery, truthy, h]
  | some s =>
    by_cases hs : s = ""
    · subst hs; simp [lteOk, buildQuery, truthy, h]
    · rw [h] at hok
      simp only [numOkField] at hok
      obtain ⟨v, hv⟩ := isNum_exists (by simpa [hs] using hok)
      simp [lteOk, buildQuery, truthy, h, hs, bne_iff_ne, hv, leBound]

theorem searchOk_char (tm : String → Product → Bool) (qp : QueryParams) (p : Product) :
    searchOk tm (buildQuery qp) p = true ↔
      (match qp.search with
       | none => True
       | some s => s = "" ∨ tm s p = true) := by
  cases h : qp.search with
  | none => simp [searchOk, buildQuery, truthy, h]
  | some s =>
    by_cases hs : s = ""
    · subst hs; simp [searchOk, buildQuery, truthy, h]
    · simp [searchOk, buildQuery, truthy, h, hs, bne_iff_ne]

/-- Counterexample for C5: the brand clause is a case-insensitive regular
expression match, not a substring match: the pattern "x.z" accepts a record
whose brand is "XYZ" (the dot is a wildcard), though "x.z" is not a
substring of "XYZ" under any case folding. -/
theorem brandRegex_cex :
    queryMatches tmAny (buildQuery { brand := some "x.z" }) prodXYZ = true
    ∧ ciSubstr "x.z" "XYZ" = false := by
  decide

/-- C5 amended: inactive records never match, regardless of the filters;
and for numeric bounds that coerce to finite numbers, the predicate is
exactly the conjunction of the base isActive clause and the provided
filters — category exact, brand as a case-insensitive regular-expression
match (substring match only for metacharacter-free patterns), inclusive
price bounds each usable independently, and the abstract text match over
the indexed name/description/brand fields. -/
theorem queryPredicate_semantics (tm : String → Product → Bool)
    (qp : QueryParams) (p : Product)
    (hmin : numOkField qp.minPrice = true) (hmax : numOkField qp.maxPrice = true) :
    (p.isActive = false → queryMatches tm (buildQuery qp) p = false)
    ∧ (queryMatches tm (buildQuery qp) p = true ↔
        p.isActive = true
        ∧ (match qp.category with
           | none => True
           | some c => c = "" ∨ p.category = c)
        ∧ (match qp.brand with
           | none => True
           | some pat => pat = "" ∨ ∃ pb, p.brand = some pb ∧ ciRegexSearch pat pb = true)
        ∧ (match qp.minPrice with
           | none => True
           | some s => s = "" ∨ ∃ v, jsToNumber s = .num v ∧ v ≤ p.price)
        ∧ (match qp.maxPrice with
           | none => True
           | some s => s = "" ∨ ∃ v, jsToNumber s = .num v ∧ p.price ≤ v)
        ∧ (match qp.search with
           | none => True
           | some s => s = "" ∨ tm s p = true)) := by
  constructor
  · intro hfalse
    simp [queryMatches, buildQuery, hfalse]
  · rw [queryMatches]
    simp only [Bool.and_eq_true]
    rw [catOk_char, brandOk_char, gteOk_char qp p hmin, lteOk_char qp p hmax,
      searchOk_char]
    have hact : (p.isActive == (buildQuery qp).isActive) = true ↔ p.isActive = true := by
      simp [buildQuery]
    rw [hact]
    tauto

/-- Witness for C5 amended: a concrete query with category and both price
bounds accepts a matching record. -/
theorem queryPredicate_semantics_witness :
    queryMatches tmAny
      (buildQuery { category := some "Men", minPrice := some "5", maxPrice := some "15" })
      prodA = true :=
  (queryPredicate_semantics tmAny
      { category := some "Men", minPrice := some "5", maxPrice := some "15" }
      prodA (by decide) (by decide)).2.mpr
    ⟨rfl, Or.inr rfl, trivial, Or.inr ⟨5, by decide, by decide⟩,
     Or.inr ⟨15, by decide, by decide⟩, trivial⟩

/-- Counterexample for C4: at `limit=0` the engine succeeds, but the fetch
is unbounded (MongoDB treats limit 0 as no limit): one matching record is
returned although the resolved limit is 0, so the slice length is not at
most the limit; the pages field is the infinity of `ceil(1/0)`. -/
theorem pagination_bound_cex :
    getProducts tmAny [prodA] { limit := some "0" } =
      .ok { data := [prodA], total := 1, page := .num 1, pages := .inf true }
    ∧ (buildPlan { limit := some "0" }).limitVal = .num 0
    ∧ ¬ resDataLen (getProducts tmAny [prodA] { limit := some "0" }) ≤ 0 := by
  decide

theorem runFind_nat (l : List Product) (S L : Nat) (hL : 1 ≤ L) :
    runFind l (.num (S : Rat)) (.num (L : Rat)) = .ok ((l.drop S).take L) := by
  have hLz : (L : Int) ≠ 0 := by exact_mod_cast Nat.one_le_iff_ne_zero.mp hL
  simp [runFind, Rat.den_natCast, Rat.num_natCast, Int.ofNat_nonneg, hLz]

/-- C4 amended: whenever page and limit resolve to positive integers P and
L, the engine succeeds and returns exactly the slice of the sorted
matching records starting at offset (P-1)*L of length at most L, with
pagination metadata total = matching count, page = P and
pages = ceil(total / L); in particular the data length is at most L.  (A
limit of 0 instead disables the bound, see the counterexample.) -/
theorem pagination_semantics (tm : String → Product → Bool)
    (db : List Product) (qp : QueryParams) (P L : Nat)
    (hpage : pageNum qp = .num (P : Rat)) (hlimit : limitNum qp = .num (L : Rat))
    (hP : 1 ≤ P) (hL : 1 ≤ L) :
    getProducts tm db qp =
      .ok { data := ((sortLe (sortCmp (buildPlan qp).sortSpec)
              (db.filter (queryMatches tm (buildPlan qp).query))).drop ((P - 1) * L)).take L
            total := (db.filter (queryMatches tm (buildPlan qp).query)).length
            page := .num (P : Rat)
            pages := .num ((ratCeil
              (((db.filter (queryMatches tm (buildPlan qp).query)).length : Rat) / (L : Rat))
              : Int) : Rat) }
    ∧ resDataLen (getProducts tm db qp) ≤ L := by
  have hLQ : ((L : Nat) : Rat) ≠ 0 := Nat.cast_ne_zero.mpr (Nat.one_le_iff_ne_zero.mp hL)
  have hskip : (buildPlan qp).skipVal = .num (((P - 1) * L : Nat) : Rat) := by
    have hdef : (buildPlan qp).skipVal = jsMul (jsSub (pageNum qp) (.num 1)) (limitNum qp) := rfl
    rw [hdef, hpage, hlimit]
    simp only [jsSub, jsMul, ratSub_eq, ratMul_eq]
    rw [Nat.cast_mul, Nat.cast_sub hP]
    push_cast
    ring_nf
  have hlim : (buildPlan qp).limitVal = .num ((L : Nat) : Rat) := by
    have hdef : (buildPlan qp).limitVal = jsMul (limitNum qp) (.num 1) := rfl
    rw [hdef, hlimit, jsMul_one]
  have hraw : (buildPlan qp).limitRaw = .num ((L : Nat) : Rat) := by
    have hdef : (buildPlan qp).limitRaw = limitNum qp := rfl
    rw [hdef, hlimit]
  have hecho : (buildPlan qp).pageEcho = .num ((P : Nat) : Rat) := by
    have hdef : (buildPlan qp).pageEcho = pageNum qp := rfl
    rw [hdef, hpage]
  have hmain : getProducts tm db qp =
      .ok { data := ((sortLe (sortCmp (buildPlan qp).sortSpec)
              (db.filter (queryMatches tm (buildPlan qp).query))).drop ((P - 1) * L)).take L
            total := (db.filter (queryMatches tm (buildPlan qp).query)).length
            page := .num (P : Rat)
            pages := .num ((ratCeil
              (((db.filter (queryMatches tm (buildPlan qp).query)).length : Rat) / (L : Rat))
              : Int) : Rat) } := by
    rw [getProducts]
    rw [hskip, hlim, runFind_nat _ _ _ hL]
    rw [hecho, hraw]
    simp only [jsDiv, jsCeil, hLQ, if_false, ratDiv_eq]
  exact ⟨hmain, by rw [hmain]; exact List.length_take_le _ _⟩

/-- Witness for C4 amended: four products, page 2 of size 2 under the
default newest-first sort returns the third and fourth products with
total 4 and pages 2. -/
theorem pagination_semantics_witness :
    getProducts tmAny [prodA, prodB, prodC, prodD] { page := some "2", limit := some "2" } =
      .ok { data := ((sortLe (sortCmp (buildPlan { page := some "2", limit := some "2" }).sortSpec)
              ([prodA, prodB, prodC, prodD].filter
                (queryMatches tmAny (buildPlan { page := some "2", limit := some "2" }).query))).drop
                ((2 - 1) * 2)).take 2
            total := ([prodA, prodB, prodC, prodD].filter
              (queryMatches tmAny (buildPlan { page := some "2", limit := some "2" }).query)).length
            page := .num ((2 : Nat) : Rat)
            pages := .num ((ratCeil
              ((([prodA, prodB, prodC, prodD].filter
                (queryMatches tmAny (buildPlan { page := some "2", limit := some "2" }).query)).length : Rat)
                / ((2 : Nat) : Rat)) : Int) : Rat) }
    ∧ resDataLen (getProducts tmAny [prodA, prodB, prodC, prodD]
        { page := some "2", limit := some "2" }) ≤ 2 :=
  pagination_semantics tmAny [prodA, prodB, prodC, prodD]
    { page := some "2", limit := some "2" } 2 2 (by decide) (by decide)
    (by decide) (by decide)
